import Mathlib

/-!
Verification of the dbgeng-rs unpacker/function-logger core.

This file gives a shallow embedding of the state-bearing core of the
repository: the allocation table and breakpoint map of
`examples/unpacker/src/entities.rs`, the monitor logic of
`examples/unpacker/src/monitor.rs` (allocation enter hook, dump-on-fault,
exception dispatch, continuation counter), the hook registry of
`examples/function_logger/src/bp.rs`, and the event boundary of
`src/events.rs`.  Machine integers (u64/u32) are modelled as `Nat` with an
explicit `% 2^w` at the points where the Rust code truncates (`as u32`) or
where wrap-around of `+` is reachable in a release build.  Fallible host
calls (registers, stack frames, memory, process handles, file writes) are
modelled by explicit host oracles carrying a success flag per call site;
`Result`-style failures propagate as a `false`/error outcome and `unwrap`
failures propagate as a distinguished panic outcome.
-/

namespace Spec2Proof

/-- Truncation modulus for `u32` values (`as u32` in the source). -/
def U32 : Nat := 2 ^ 32

/-- Wrap-around modulus for `u64` arithmetic. -/
def U64 : Nat := 2 ^ 64

/-- Windows constant `PAGE_EXECUTE_READWRITE` (0x40). -/
def PAGE_EXECUTE_READWRITE : Nat := 0x40

/-- Windows constant `PAGE_READWRITE` (0x04). -/
def PAGE_READWRITE : Nat := 0x04

/-- Windows constant `PAGE_EXECUTE_WRITECOPY` (0x80): asks for write and
execute permission simultaneously, like `PAGE_EXECUTE_READWRITE`. -/
def PAGE_EXECUTE_WRITECOPY : Nat := 0x80

/-- Windows NTSTATUS code `EXCEPTION_ACCESS_VIOLATION`. -/
def EXCEPTION_ACCESS_VIOLATION : Nat := 0xC0000005

/-- dbgeng constant `DEBUG_CES_EXECUTION_STATUS`. -/
def DEBUG_CES_EXECUTION_STATUS : Nat := 8

/-- dbgeng constant `DEBUG_STATUS_BREAK`. -/
def DEBUG_STATUS_BREAK : Nat := 6

/-- `entities.rs::AllocatedMemory`: one allocation record.  `address = 0`
until the record is resolved by the exit hook (`update_allocation`). -/
structure AllocatedMemory where
  size : Nat
  protection : Nat
  address : Nat
  function_return : Nat
deriving Repr, DecidableEq

/-- `entities.rs::BreakpointFunction`. -/
inductive BreakpointFunction where
  | VirtualAllocEnter
  | VirtualAllocExit
  | VirtualFree
  | NoFunction
deriving Repr, DecidableEq

/-- `entities.rs::CallbackBreakpointData`: the per-breakpoint data stored in
the `MemoryRegions` map. The `DebugBreakpoint` itself is represented by its
GUID (modelled as a `Nat`). -/
structure CallbackBreakpointData where
  address : Nat
  function : BreakpointFunction
  guid : Nat
deriving Repr, DecidableEq

/-- `entities.rs::MemoryRegions`: the breakpoint map (a `HashMap` keyed by
breakpoint GUID, modelled as an association list) and the allocation vector.
The dump directory only contributes a path prefix and is omitted. -/
structure MemoryRegions where
  breakpoints : List (Nat × CallbackBreakpointData)
  allocations : List AllocatedMemory
deriving Repr, DecidableEq

/-- `MemoryRegions::add_breakpoint`: `HashMap::insert` keyed by the
breakpoint's GUID (replacing any entry with the same key). -/
def MemoryRegions.add_breakpoint (r : MemoryRegions) (guid address : Nat)
    (function : BreakpointFunction) : MemoryRegions :=
  { r with breakpoints :=
      (guid, { address := address, function := function, guid := guid }) ::
        r.breakpoints.filter (fun p => !(decide (p.1 = guid))) }

/-- `MemoryRegions::is_address_hooked`: any entry with the given function
kind at the given address. -/
def MemoryRegions.is_address_hooked (r : MemoryRegions) (address : Nat)
    (bp_type : BreakpointFunction) : Bool :=
  r.breakpoints.any (fun p => decide (p.2.function = bp_type) && decide (p.2.address = address))

/-- `MemoryRegions::get_breakpoint_type`: kind of the fired breakpoint, or
`NoFunction` when its GUID is not in the map. -/
def MemoryRegions.get_breakpoint_type (r : MemoryRegions) (guid : Nat) : BreakpointFunction :=
  match r.breakpoints.find? (fun p => decide (p.1 = guid)) with
  | some p => p.2.function
  | none => BreakpointFunction.NoFunction

/-- `MemoryRegions::new_allocation`: `Vec::push` of a pending record. -/
def MemoryRegions.new_allocation (r : MemoryRegions) (m : AllocatedMemory) : MemoryRegions :=
  { r with allocations := r.allocations ++ [m] }

/-- Helper for `update_allocation`: set the address of the first record whose
`function_return` matches, returning its size (0 when no record matches),
exactly as `iter_mut().find(...)` does. -/
def updateFirstAllocation : List AllocatedMemory → Nat → Nat → List AllocatedMemory × Nat
  | [], _, _ => ([], 0)
  | a :: rest, key, addr =>
    if a.function_return = key then
      ({ a with address := addr } :: rest, a.size)
    else
      let (rest', sz) := updateFirstAllocation rest key addr
      (a :: rest', sz)

/-- `MemoryRegions::update_allocation(function_return_addr, allocated_address)`:
resolve the pending record keyed by the enter call's return address. -/
def MemoryRegions.update_allocation (r : MemoryRegions)
    (function_return_addr allocated_address : Nat) : MemoryRegions × Nat :=
  let (l, sz) := updateFirstAllocation r.allocations function_return_addr allocated_address
  ({ r with allocations := l }, sz)

/-- `MemoryRegions::get_allocation(address)`: the source's containment test is
`address >= a.address && a.address + a.size < address` (note the direction of
the second comparison, taken verbatim from `entities.rs` line 97). -/
def MemoryRegions.get_allocation (r : MemoryRegions) (address : Nat) : Option AllocatedMemory :=
  r.allocations.find? (fun a =>
    decide (a.address ≤ address) && decide ((a.address + a.size) % U64 < address))

/-- `MemoryRegions::free_allocation(address, size)`: remove the first record
with this base address whose size matches or where the given size is zero. -/
def MemoryRegions.free_allocation (r : MemoryRegions) (address size : Nat) : MemoryRegions :=
  { r with allocations :=
      r.allocations.eraseP (fun a =>
        decide (a.address = address) && (decide (a.size = size) || decide (size = 0))) }

/-- The empty `MemoryRegions` state (`MemoryRegions::new`). -/
def MemoryRegions.empty : MemoryRegions := { breakpoints := [], allocations := [] }

/-- Host oracle for the fault-response path of `monitor.rs`: one success flag
per fallible host/OS call made by `handle_exception` and
`dump_dynamic_code`, in call order: `get_current_process_id`, `OpenProcess`,
the `HANDLE::is_invalid` check, `read_virtual`, `fs::write`, the `dlogln!`
whose error the dump propagates, `VirtualProtectEx`, `CloseHandle`. -/
structure FaultHost where
  pid_ok : Bool
  open_ok : Bool
  handle_valid : Bool
  read_ok : Bool
  write_ok : Bool
  log_ok : Bool
  protect_ok : Bool
  close_ok : Bool
deriving Repr, DecidableEq

/-- The host oracle on which every fault-response call succeeds. -/
def allOkHost : FaultHost :=
  { pid_ok := true, open_ok := true, handle_valid := true, read_ok := true,
    write_ok := true, log_ok := true, protect_ok := true, close_ok := true }

/-- A dump artifact name.  `MemoryRegions::get_dump_file` formats
`dump_{address:x}_{size}.bin`; since hexadecimal digits never contain the
`_` separator this format is injective in the pair `(address, size)`, which
is what we model the name as. -/
abbrev DumpName := Nat × Nat

/-- The deterministic artifact name of a region (`get_dump_file`). -/
def dump_file (m : AllocatedMemory) : DumpName := (m.address, m.size)

/-- Result of `dump_dynamic_code`: whether it returned `Ok`, the set of
files present afterwards (stable storage modelled as the list of artifact
names), and whether this invocation performed the `fs::write`. -/
structure DumpOutcome where
  ok : Bool
  fs : List DumpName
  wrote : Bool
deriving Repr, DecidableEq

/-- `monitor.rs::dump_dynamic_code`: skip everything when the artifact file
already exists; otherwise read the live region (`read_virtual?`), write the
file (`fs::write?`) and log (`dlogln!?`), each failure propagating via `?`.
A failed write leaves no artifact; the log line runs after the write, so its
failure still leaves the artifact behind. -/
def dump_dynamic_code (host : FaultHost) (fs : List DumpName) (m : AllocatedMemory) : DumpOutcome :=
  let name := dump_file m
  if name ∈ fs then { ok := true, fs := fs, wrote := false }
  else if !host.read_ok then { ok := false, fs := fs, wrote := false }
  else if !host.write_ok then { ok := false, fs := fs, wrote := false }
  else if !host.log_ok then { ok := false, fs := name :: fs, wrote := true }
  else { ok := true, fs := name :: fs, wrote := true }

/-- Result of `handle_exception`: whether it returned `Ok`, the stable
storage afterwards, whether a dump write happened, and whether a process
handle was opened / closed during the call. -/
structure FaultOutcome where
  ok : Bool
  fs : List DumpName
  wrote : Bool
  opened : Bool
  closed : Bool
deriving Repr, DecidableEq

/-- `monitor.rs::handle_exception`: look the faulting address up in the
allocation table; on a match open a process handle, dump the region, restore
the recorded protection with `VirtualProtectEx` and close the handle.  Each
`?` failure returns early; in the source `CloseHandle` is only reached after
`VirtualProtectEx` succeeds, and the `bail!` on an invalid handle returns
without closing.  When the lookup misses, the function does nothing and
returns `Ok(())`. -/
def handle_exception (host : FaultHost) (regions : MemoryRegions) (fs : List DumpName)
    (exception_address : Nat) : FaultOutcome :=
  match regions.get_allocation exception_address with
  | none => { ok := true, fs := fs, wrote := false, opened := false, closed := false }
  | some m =>
    if !host.pid_ok then
      { ok := false, fs := fs, wrote := false, opened := false, closed := false }
    else if !host.open_ok then
      { ok := false, fs := fs, wrote := false, opened := false, closed := false }
    else if !host.handle_valid then
      { ok := false, fs := fs, wrote := false, opened := true, closed := false }
    else
      let d := dump_dynamic_code host fs m
      if !d.ok then
        { ok := false, fs := d.fs, wrote := d.wrote, opened := true, closed := false }
      else if !host.protect_ok then
        { ok := false, fs := d.fs, wrote := d.wrote, opened := true, closed := false }
      else if !host.close_ok then
        { ok := false, fs := d.fs, wrote := d.wrote, opened := true, closed := true }
      else
        { ok := true, fs := d.fs, wrote := d.wrote, opened := true, closed := true }

/-- `events.rs::DebugInstruction`. -/
inductive DebugInstruction where
  | Break
  | StepInto
  | StepBranch
  | StepOver
  | GoNotHandled
  | GoHandled
  | Go
  | IgnoreEvent
  | Restart
  | NoChange
deriving Repr, DecidableEq

/-- `exception.rs::ExceptionRecord` (the two fields the monitor reads). -/
structure ExceptionRecord where
  exception_code : Nat
  exception_address : Nat
deriving Repr, DecidableEq

/-- `exception.rs::ExceptionInfo`: the record plus the first-chance flag
(a `u32`, nonzero meaning first chance). -/
structure ExceptionInfo where
  record : ExceptionRecord
  first_chance : Nat
deriving Repr, DecidableEq

/-- Result of the `exception` event callback: the instruction handed back to
the engine, the `exception_handled` counter afterwards, and stable storage
afterwards. -/
structure ExceptionOutcome where
  instruction : DebugInstruction
  exception_handled : Int
  fs : List DumpName
deriving Repr, DecidableEq

/-- `monitor.rs::PluginEventCallbacks::exception`: when the exception code is
`EXCEPTION_ACCESS_VIOLATION` the handler runs `handle_exception`; an `Ok`
result replaces the `exception_handled` cell with 2 and returns `GoHandled`,
an `Err` result is logged and falls through to `GoNotHandled`.  Any other
exception code returns `GoNotHandled` untouched.  The first-chance flag is
only logged, never tested. -/
def exception_callback (host : FaultHost) (regions : MemoryRegions) (fs : List DumpName)
    (exception_handled : Int) (ei : ExceptionInfo) : ExceptionOutcome :=
  if ei.record.exception_code = EXCEPTION_ACCESS_VIOLATION then
    let o := handle_exception host regions fs ei.record.exception_address
    if o.ok then
      { instruction := DebugInstruction.GoHandled, exception_handled := 2, fs := o.fs }
    else
      { instruction := DebugInstruction.GoNotHandled, exception_handled := exception_handled,
        fs := o.fs }
  else
    { instruction := DebugInstruction.GoNotHandled, exception_handled := exception_handled,
      fs := fs }

/-- Result of `change_engine_state`: the counter afterwards and whether the
callback issued the explicit `g` (continue execution) command. -/
structure EngineStateOutcome where
  exception_handled : Int
  continued : Bool
deriving Repr, DecidableEq

/-- `monitor.rs::PluginEventCallbacks::change_engine_state`: when the flags
say the execution status changed to `DEBUG_STATUS_BREAK` (`argument as u32`)
and the counter is positive, replace the counter by its predecessor
(`replace_with(|old| old - 1)`) and, since the returned old value was
positive, issue one `g` command. -/
def change_engine_state (exception_handled : Int) (flags argument : Nat) : EngineStateOutcome :=
  let exception_pending := 0 < exception_handled
  if flags = DEBUG_CES_EXECUTION_STATUS ∧ argument % U32 = DEBUG_STATUS_BREAK ∧ exception_pending then
    let old_value := exception_handled
    let new_value := exception_handled - 1
    if 0 < old_value then { exception_handled := new_value, continued := true }
    else { exception_handled := new_value, continued := false }
  else { exception_handled := exception_handled, continued := false }

/-- Result of `VirtualAlloc_enter`: the regions state afterwards and the
value left in the in-flight call's `r9` (protection) register. -/
structure EnterOutcome where
  regions : MemoryRegions
  r9 : Nat
deriving Repr, DecidableEq

/-- `monitor.rs::VirtualAlloc_enter` on the success path of its host calls:
reads `rdx` (size) and `r9` (protection) and the top stack frame's return
offset `ro`; pushes a pending record storing the original protection
truncated to u32 and address 0; hooks the return address once (the source
guards with `is_function_exit_hooked(ro)`, absent from `entities.rs` —
modelled from the spec: "the exit hook is added at most once per return
site", i.e. as `is_address_hooked(ro, VirtualAllocExit)`; the subsequent
`set_function_exit_hooked` marks the enter entry and has no further
observable effect under this reading); finally rewrites `r9` to
`PAGE_READWRITE` exactly when `r9 as u32 == PAGE_EXECUTE_READWRITE`. -/
def VirtualAlloc_enter (regions : MemoryRegions) (freshGuid rdx r9 ro : Nat) : EnterOutcome :=
  let allocation : AllocatedMemory :=
    { size := rdx, protection := r9 % U32, address := 0, function_return := ro }
  let regions := regions.new_allocation allocation
  let regions :=
    if regions.is_address_hooked ro BreakpointFunction.VirtualAllocExit then regions
    else regions.add_breakpoint freshGuid ro BreakpointFunction.VirtualAllocExit
  let r9' := if r9 % U32 = PAGE_EXECUTE_READWRITE then PAGE_READWRITE else r9
  { regions := regions, r9 := r9' }

/-- Modelled from the spec: "if the request simultaneously asks for write and
execute permission".  Among the Windows page-protection values, the ones
granting both write and execute permission are `PAGE_EXECUTE_READWRITE`
(0x40) and `PAGE_EXECUTE_WRITECOPY` (0x80). -/
def spec_write_and_execute (p : Nat) : Bool :=
  decide (p = PAGE_EXECUTE_READWRITE) || decide (p = PAGE_EXECUTE_WRITECOPY)

/-- An entry of the unpacker's breakpoint map is a `VirtualAllocExit` hook
installed at return address `ro` (the same test `is_address_hooked` makes). -/
def exitBpPred (ro : Nat) (p : Nat × CallbackBreakpointData) : Bool :=
  decide (p.2.function = BreakpointFunction.VirtualAllocExit) && decide (p.2.address = ro)

/-- Number of `VirtualAllocExit` breakpoints the unpacker's map holds at a
given return address. -/
def countExitBpAt (r : MemoryRegions) (ro : Nat) : Nat :=
  r.breakpoints.countP (exitBpPred ro)

/-- Outcome of a Rust computation that may `unwrap` a failed call: either a
value, or an unwinding panic. -/
inductive PanicOr (α : Type) where
  | panicked
  | value (a : α)
deriving Repr, DecidableEq

/-- `bp.rs::CallbackBreakpointData` (function logger): the breakpoint
(represented by its GUID and its offset), the monitored function's name
(abstracted to a `Nat` identifier), the `function_return_hooked` flag, and
which callback closure is stored — `is_exit_callback` marks the dynamically
installed return-site entries holding `monitored_func_end`. -/
structure LoggerBpData where
  guid : Nat
  offset : Nat
  function_name : Nat
  function_return_hooked : Bool
  is_exit_callback : Bool
deriving Repr, DecidableEq

/-- Host oracle for one firing of `CallbackBreakpoints::call`: the GUID
lookups (`bp.guid().unwrap()`), the stack introspection
(`context_stack_frames(1).unwrap()`) and the breakpoint creation
(`add_breakpoint(..).unwrap()`) panic on failure; `ro` is the top frame's
return offset, `fresh_guid` the GUID of a newly created breakpoint, and
`cb_result` the instruction produced by the stored callback (already
`NoChange` when the callback returned `Err`, as the source logs and maps
errors to `NoChange`). -/
structure LoggerHost where
  guid_ok : Bool
  stack_ok : Bool
  addbp_ok : Bool
  ro : Nat
  fresh_guid : Nat
  cb_result : DebugInstruction
deriving Repr, DecidableEq

/-- Lookup of a GUID key in the hook registry (`HashMap::get_mut`). -/
def lookupBp (l : List (Nat × LoggerBpData)) (g : Nat) : Option LoggerBpData :=
  (l.find? (fun p => decide (p.1 = g))).map Prod.snd

/-- Set `function_return_hooked` on the entry with the given GUID (the
source's `data.function_return_hooked = true` through `get_mut`). -/
def setHooked (l : List (Nat × LoggerBpData)) (g : Nat) : List (Nat × LoggerBpData) :=
  l.map (fun p => if p.1 = g then (p.1, { p.2 with function_return_hooked := true }) else p)

/-- `HashMap::insert` keyed by GUID (replacing any entry with the same key). -/
def bpInsert (l : List (Nat × LoggerBpData)) (g : Nat) (d : LoggerBpData) :
    List (Nat × LoggerBpData) :=
  (g, d) :: l.filter (fun p => !(decide (p.1 = g)))

/-- `bp.rs::CallbackBreakpoints::call`: look the fired breakpoint up by GUID
(`unwrap` panics when the GUID query fails); an unknown GUID yields
`NoChange`.  For a known entry, remember whether its return was not yet
hooked, set the flag, and run the stored callback.  If the return still
needed hooking, read the top stack frame and create a breakpoint at its
return offset (both `unwrap`ed), and insert the new exit entry keyed by the
new breakpoint's GUID. -/
def CallbackBreakpoints.call (l : List (Nat × LoggerBpData)) (host : LoggerHost)
    (fired : Nat) : PanicOr (List (Nat × LoggerBpData) × DebugInstruction) :=
  if !host.guid_ok then PanicOr.panicked
  else
    match lookupBp l fired with
    | none => PanicOr.value (l, DebugInstruction.NoChange)
    | some data =>
      let need_to_hook := !data.function_return_hooked
      let l1 := setHooked l fired
      let result := host.cb_result
      if need_to_hook then
        if !host.stack_ok then PanicOr.panicked
        else if !host.addbp_ok then PanicOr.panicked
        else
          PanicOr.value
            (bpInsert l1 host.fresh_guid
              { guid := host.fresh_guid, offset := host.ro,
                function_name := data.function_name, function_return_hooked := true,
                is_exit_callback := true }, result)
      else PanicOr.value (l1, result)

/-- An entry is an exit hook installed at return address `ro`. -/
def exitPred (ro : Nat) (p : Nat × LoggerBpData) : Bool :=
  p.2.is_exit_callback && decide (p.2.offset = ro)

/-- Number of exit-hook entries installed at a given return address. -/
def countExitAt (l : List (Nat × LoggerBpData)) (ro : Nat) : Nat :=
  l.countP (exitPred ro)

/-- `events.rs::DbgEventCallbacks::Breakpoint`: the COM boundary wraps the
registered callback in `catch_unwind`; a panic is logged and converted into
`GoNotHandled`, and the resulting instruction's status code is handed back
to the engine.  Instantiated with the function logger's breakpoint
callback (`PluginEventCallbacks::breakpoint`, which is `BREAKPOINTS.call`). -/
def logger_breakpoint_event (l : List (Nat × LoggerBpData)) (host : LoggerHost)
    (fired : Nat) : DebugInstruction :=
  match CallbackBreakpoints.call l host fired with
  | PanicOr.panicked => DebugInstruction.GoNotHandled
  | PanicOr.value (_, i) => i

/-- One notification consumed by the unpacker's continuation scheduler: an
exception (with its host oracle, the allocation table and stable storage at
that moment as adversarial inputs) or an engine-state change. -/
inductive Notification where
  | exception_event (host : FaultHost) (regions : MemoryRegions) (fs : List DumpName)
      (ei : ExceptionInfo)
  | engine_state_event (flags argument : Nat)

/-- Effect of one notification on the `exception_handled` counter, as
implemented by `PluginEventCallbacks::exception` and
`PluginEventCallbacks::change_engine_state`. -/
def counter_step (c : Int) : Notification → Int
  | Notification.exception_event host regions fs ei =>
      (exception_callback host regions fs c ei).exception_handled
  | Notification.engine_state_event flags argument =>
      (change_engine_state c flags argument).exception_handled

/-- The registry state after a possibly-panicking `call`; the default is
only used on the panic branch, which the theorems below exclude by
hypothesis. -/
def call_state (dflt : List (Nat × LoggerBpData)) :
    PanicOr (List (Nat × LoggerBpData) × DebugInstruction) → List (Nat × LoggerBpData)
  | PanicOr.panicked => dflt
  | PanicOr.value (st, _) => st

/-- A concrete enter-hook entry (not yet return-hooked). -/
def loggerEnterEntry : LoggerBpData :=
  { guid := 1, offset := 0, function_name := 0, function_return_hooked := false,
    is_exit_callback := false }

/-- A registry holding the single enter-hook entry. -/
def loggerRegistry0 : List (Nat × LoggerBpData) := [(1, loggerEnterEntry)]

/-- A fully successful host for one firing: return offset 100, fresh GUID 2. -/
def loggerHostA : LoggerHost :=
  { guid_ok := true, stack_ok := true, addbp_ok := true, ro := 100, fresh_guid := 2,
    cb_result := DebugInstruction.Go }

/-- A fully successful host for a second firing sharing return offset 100. -/
def loggerHostB : LoggerHost :=
  { guid_ok := true, stack_ok := true, addbp_ok := true, ro := 100, fresh_guid := 3,
    cb_result := DebugInstruction.Go }

/-- A fully successful host for a second firing observing the distinct
return offset 200. -/
def loggerHostC : LoggerHost :=
  { guid_ok := true, stack_ok := true, addbp_ok := true, ro := 200, fresh_guid := 3,
    cb_result := DebugInstruction.Go }

/-- A host whose GUID query fails, making the registry's `unwrap` panic. -/
def loggerHostPanic : LoggerHost :=
  { guid_ok := false, stack_ok := true, addbp_ok := true, ro := 0, fresh_guid := 0,
    cb_result := DebugInstruction.NoChange }

/-- Claim C1: the claim states that after `begin(size, prot, key)` and
`resolve(key, addr)`, `lookup(a)` returns the record exactly for
`addr ≤ a < addr + size` and that unresolved records never match.  The code's
`get_allocation` uses the reversed comparison `base + size < address`, so at
the concrete input `begin(16, 4, key 1); resolve(1, 100)` the lookup at the
base address 100 returns nothing, the lookup at 117 (outside the half-open
range `[100, 116)`) returns the record, and an unresolved record (base 0,
size 16) matches a lookup at 20. -/
theorem c1_lookup_reversed_comparison :
    ((MemoryRegions.empty.new_allocation
        { size := 16, protection := 4, address := 0, function_return := 1 }).update_allocation
          1 100).1.get_allocation 100 = none
  ∧ ((MemoryRegions.empty.new_allocation
        { size := 16, protection := 4, address := 0, function_return := 1 }).update_allocation
          1 100).1.get_allocation 117
      = some { size := 16, protection := 4, address := 100, function_return := 1 }
  ∧ (MemoryRegions.empty.new_allocation
        { size := 16, protection := 4, address := 0, function_return := 1 }).get_allocation 20
      = some { size := 16, protection := 4, address := 0, function_return := 1 } := by
  decide

/-- Claim C2: the claim states that a fault whose address matches no tracked
record is reported unhandled.  In the code, `handle_exception` returns
`Ok(())` when the lookup misses, and the `exception` callback maps every
`Ok` to `GoHandled` (setting the continuation counter to 2): with an empty
allocation table, an access violation at 0x1000 is reported handled. -/
theorem c2_unmatched_fault_reported_handled :
    exception_callback allOkHost MemoryRegions.empty [] 0
        { record := { exception_code := 0xC0000005, exception_address := 0x1000 },
          first_chance := 1 }
      = { instruction := DebugInstruction.GoHandled, exception_handled := 2, fs := [] } := by
  decide

/-- Claim C3, counterexample: the claim states that an exception that is not
first-chance is never routed to the fault-response engine.  The code only
tests the exception code: a second-chance (`first_chance = 0`) access
violation inside a tracked region is still routed — the region is dumped
(the artifact `(100, 16)` appears) and the event is answered `GoHandled`. -/
theorem c3_second_chance_still_routed :
    exception_callback allOkHost
        { breakpoints := [],
          allocations := [{ size := 16, protection := 4, address := 100, function_return := 1 }] }
        [] 0
        { record := { exception_code := 0xC0000005, exception_address := 117 },
          first_chance := 0 }
      = { instruction := DebugInstruction.GoHandled, exception_handled := 2,
          fs := [(100, 16)] } := by
  decide

/-- Claim C3, amended: the dispatcher routes to the fault-response engine
exactly when the exception code is `EXCEPTION_ACCESS_VIOLATION`; the
first-chance flag is ignored (the callback's result does not depend on it),
and any non-access-violation exception is answered `GoNotHandled` with no
state change. -/
theorem c3_eligibility_ignores_first_chance (host : FaultHost) (regions : MemoryRegions)
    (fs : List DumpName) (c : Int) (r : ExceptionRecord) (fc fc' : Nat) :
    exception_callback host regions fs c { record := r, first_chance := fc }
      = exception_callback host regions fs c { record := r, first_chance := fc' }
  ∧ (r.exception_code ≠ EXCEPTION_ACCESS_VIOLATION →
      exception_callback host regions fs c { record := r, first_chance := fc }
        = { instruction := DebugInstruction.GoNotHandled, exception_handled := c, fs := fs }) := by
  constructor
  · rfl
  · intro h
    simp [exception_callback, h]

/-- Witness for `c3_eligibility_ignores_first_chance` at a breakpoint
exception code (0x80000003). -/
theorem c3_eligibility_witness :
    exception_callback allOkHost MemoryRegions.empty [] 0
        { record := { exception_code := 0x80000003, exception_address := 5 }, first_chance := 1 }
      = { instruction := DebugInstruction.GoNotHandled, exception_handled := 0, fs := [] } :=
  (c3_eligibility_ignores_first_chance allOkHost MemoryRegions.empty [] 0
      { exception_code := 0x80000003, exception_address := 5 } 1 1).2 (by decide)

/-- Claim C4, counterexample: the claim states that every requested
protection with both the write and the execute permission set is rewritten
to write-only.  The code compares for equality with
`PAGE_EXECUTE_READWRITE` only: a request for `PAGE_EXECUTE_WRITECOPY`
(0x80), which also grants write and execute permission, is left unchanged
in the in-flight call. -/
theorem c4_write_copy_not_flipped :
    spec_write_and_execute PAGE_EXECUTE_WRITECOPY = true
  ∧ (VirtualAlloc_enter MemoryRegions.empty 7 4096 PAGE_EXECUTE_WRITECOPY 500).r9
      = PAGE_EXECUTE_WRITECOPY := by
  decide

/-- Claim C4, amended: the in-flight protection argument is rewritten to
`PAGE_READWRITE` exactly when the requested protection (truncated to u32)
equals `PAGE_EXECUTE_READWRITE`, and is otherwise left unchanged; in every
case the new allocation record stores the original (pre-flip) requested
protection. -/
theorem c4_protection_flip_amended (regions : MemoryRegions) (g rdx r9 ro : Nat) :
    (r9 % U32 = PAGE_EXECUTE_READWRITE →
        (VirtualAlloc_enter regions g rdx r9 ro).r9 = PAGE_READWRITE)
  ∧ (r9 % U32 ≠ PAGE_EXECUTE_READWRITE →
        (VirtualAlloc_enter regions g rdx r9 ro).r9 = r9)
  ∧ (VirtualAlloc_enter regions g rdx r9 ro).regions.allocations
      = regions.allocations ++
          [{ size := rdx, protection := r9 % U32, address := 0, function_return := ro }] := by
  refine ⟨fun h => ?_, fun h => ?_, ?_⟩
  · simp [VirtualAlloc_enter, h]
  · simp [VirtualAlloc_enter, h]
  · simp only [VirtualAlloc_enter, MemoryRegions.new_allocation, MemoryRegions.add_breakpoint]
    split <;> rfl

/-- Witness for `c4_protection_flip_amended`: 0x40 is flipped to 0x04, 0x80
is left unchanged. -/
theorem c4_protection_flip_amended_witness :
    (VirtualAlloc_enter MemoryRegions.empty 7 4096 64 500).r9 = PAGE_READWRITE
  ∧ (VirtualAlloc_enter MemoryRegions.empty 7 4096 128 500).r9 = 128 :=
  ⟨(c4_protection_flip_amended MemoryRegions.empty 7 4096 64 500).1 (by decide),
   (c4_protection_flip_amended MemoryRegions.empty 7 4096 128 500).2.1 (by decide)⟩

/-- Claim C6: dumping a resolved region that has no artifact yet creates
exactly one artifact, and a second invocation for the same region — under
any host behavior — performs no write, changes nothing, and succeeds. -/
theorem c6_dump_idempotent (host host2 : FaultHost) (fs : List DumpName) (m : AllocatedMemory)
    (hfresh : dump_file m ∉ fs) (hok : (dump_dynamic_code host fs m).ok = true) :
    (dump_dynamic_code host fs m).fs.count (dump_file m) = 1
  ∧ dump_dynamic_code host2 (dump_dynamic_code host fs m).fs m
      = { ok := true, fs := (dump_dynamic_code host fs m).fs, wrote := false } := by
  by_cases hr : host.read_ok <;> by_cases hw : host.write_ok <;> by_cases hl : host.log_ok <;>
    simp [dump_dynamic_code, hfresh, hr, hw, hl] at hok ⊢
  exact List.count_eq_zero.mpr hfresh

/-- Witness for `c6_dump_idempotent` at a concrete resolved region and an
empty stable storage. -/
theorem c6_dump_idempotent_witness :
    (dump_dynamic_code allOkHost []
        { size := 16, protection := 4, address := 100, function_return := 1 }).fs.count
      (dump_file { size := 16, protection := 4, address := 100, function_return := 1 }) = 1
  ∧ dump_dynamic_code allOkHost
      (dump_dynamic_code allOkHost []
        { size := 16, protection := 4, address := 100, function_return := 1 }).fs
      { size := 16, protection := 4, address := 100, function_return := 1 }
      = { ok := true,
          fs := (dump_dynamic_code allOkHost []
            { size := 16, protection := 4, address := 100, function_return := 1 }).fs,
          wrote := false } :=
  c6_dump_idempotent allOkHost allOkHost []
    { size := 16, protection := 4, address := 100, function_return := 1 }
    (by decide) (by decide)

/-- Claim C7, counterexample: the claim states that a successfully handled
fault increments the pending-continuations counter by one.  The code
replaces the counter with the constant 2: starting from counter 0, a
handled fault leaves the counter at 2, not 0 + 1. -/
theorem c7_counter_set_to_two_not_incremented :
    (exception_callback allOkHost
        { breakpoints := [],
          allocations := [{ size := 16, protection := 4, address := 100, function_return := 1 }] }
        [] 0
        { record := { exception_code := 0xC0000005, exception_address := 117 },
          first_chance := 1 }).instruction = DebugInstruction.GoHandled
  ∧ (exception_callback allOkHost
        { breakpoints := [],
          allocations := [{ size := 16, protection := 4, address := 100, function_return := 1 }] }
        [] 0
        { record := { exception_code := 0xC0000005, exception_address := 117 },
          first_chance := 1 }).exception_handled ≠ 0 + 1 := by
  decide

/-- Claim C7, amended: on a successfully handled fault the dispatcher sets
the pending-continuations counter to 2 (not an increment by one); on an
engine-state change reporting execution status `DEBUG_STATUS_BREAK` with a
positive counter it decrements the counter by one and issues exactly one
explicit continue command, and in every other case it leaves the counter
alone and issues none. -/
theorem c7_continuation_counter_amended (host : FaultHost) (regions : MemoryRegions)
    (fs : List DumpName) (c : Int) (ei : ExceptionInfo) :
    ((exception_callback host regions fs c ei).instruction = DebugInstruction.GoHandled →
        (exception_callback host regions fs c ei).exception_handled = 2)
  ∧ (∀ (c' : Int) (flags argument : Nat), 0 < c' → flags = DEBUG_CES_EXECUTION_STATUS →
        argument % U32 = DEBUG_STATUS_BREAK →
        change_engine_state c' flags argument
          = { exception_handled := c' - 1, continued := true })
  ∧ (∀ (c' : Int) (flags argument : Nat),
        ¬(flags = DEBUG_CES_EXECUTION_STATUS ∧ argument % U32 = DEBUG_STATUS_BREAK ∧ 0 < c') →
        change_engine_state c' flags argument
          = { exception_handled := c', continued := false }) := by
  refine ⟨?_, ?_, ?_⟩
  · by_cases hcode : ei.record.exception_code = EXCEPTION_ACCESS_VIOLATION
    · by_cases hok : (handle_exception host regions fs ei.record.exception_address).ok <;>
        simp [exception_callback, hcode, hok]
    · simp [exception_callback, hcode]
  · intro c' flags argument hpos hf ha
    simp [change_engine_state, hf, ha, hpos]
  · intro c' flags argument hneg
    simp only [change_engine_state]
    rw [if_neg hneg]

/-- Witness for `c7_continuation_counter_amended`: a handled fault from
counter 0 yields counter 2; `change_engine_state` at counter 2 with the
break status decrements to 1 and continues; with non-matching flags it does
nothing. -/
theorem c7_continuation_counter_amended_witness :
    (exception_callback allOkHost
        { breakpoints := [],
          allocations := [{ size := 16, protection := 4, address := 100, function_return := 1 }] }
        [] 0
        { record := { exception_code := 0xC0000005, exception_address := 117 },
          first_chance := 1 }).exception_handled = 2
  ∧ change_engine_state 2 DEBUG_CES_EXECUTION_STATUS DEBUG_STATUS_BREAK
      = { exception_handled := 1, continued := true }
  ∧ change_engine_state 2 0 0 = { exception_handled := 2, continued := false } :=
  ⟨(c7_continuation_counter_amended allOkHost
      { breakpoints := [],
        allocations := [{ size := 16, protection := 4, address := 100, function_return := 1 }] }
      [] 0
      { record := { exception_code := 0xC0000005, exception_address := 117 },
        first_chance := 1 }).1 (by decide),
   (c7_continuation_counter_amended allOkHost MemoryRegions.empty [] 0
      { record := { exception_code := 0, exception_address := 0 }, first_chance := 0 }).2.1
      2 DEBUG_CES_EXECUTION_STATUS DEBUG_STATUS_BREAK (by decide) rfl (by decide),
   (c7_continuation_counter_amended allOkHost MemoryRegions.empty [] 0
      { record := { exception_code := 0, exception_address := 0 }, first_chance := 0 }).2.2
      2 0 0 (by decide)⟩

/-- Claim C8: the claim states the process handle is released on every exit
path of the fault response.  In the code `CloseHandle` is only reached
after `VirtualProtectEx` succeeds: when the dump's `fs::write` fails, or
when `VirtualProtectEx` fails, `handle_exception` returns through `?` with
the handle still open. -/
theorem c8_handle_leak_on_error_paths :
    (handle_exception { allOkHost with write_ok := false }
        { breakpoints := [],
          allocations := [{ size := 16, protection := 4, address := 100, function_return := 1 }] }
        [] 117)
      = { ok := false, fs := [], wrote := false, opened := true, closed := false }
  ∧ (handle_exception { allOkHost with protect_ok := false }
        { breakpoints := [],
          allocations := [{ size := 16, protection := 4, address := 100, function_return := 1 }] }
        [] 117)
      = { ok := false, fs := [(100, 16)], wrote := true, opened := true, closed := false } := by
  decide

/-- Setting the `function_return_hooked` flag changes no entry's exit flag
or offset, so exit counts are unchanged. -/
theorem countExitAt_setHooked (l : List (Nat × LoggerBpData)) (g ro : Nat) :
    countExitAt (setHooked l g) ro = countExitAt l ro := by
  induction l with
  | nil => rfl
  | cons p t ih =>
    by_cases hp : p.1 = g <;>
      simp [countExitAt, setHooked, List.countP_cons, exitPred, hp] at ih ⊢ <;>
      omega

/-- Setting the `function_return_hooked` flag on the entry keyed `g` is seen
by a lookup of `g` as exactly that field update. -/
theorem lookupBp_setHooked (l : List (Nat × LoggerBpData)) (g : Nat) :
    lookupBp (setHooked l g) g
      = (lookupBp l g).map (fun d => { d with function_return_hooked := true }) := by
  induction l with
  | nil => rfl
  | cons p t ih =>
    by_cases hp : p.1 = g <;>
      simp [lookupBp, setHooked, List.find?_cons, hp] at ih ⊢
    exact ih

/-- Filtering out a key that occurs nowhere keeps the list intact. -/
theorem filter_keys_ne (l : List (Nat × LoggerBpData)) (g : Nat)
    (h : ∀ p ∈ l, p.1 ≠ g) : l.filter (fun p => !(decide (p.1 = g))) = l := by
  apply List.filter_eq_self.mpr
  intro a ha
  simp [h a ha]

/-- `setHooked` preserves keys, so key freshness is preserved. -/
theorem setHooked_keys_ne (l : List (Nat × LoggerBpData)) (g x : Nat)
    (h : ∀ p ∈ l, p.1 ≠ x) : ∀ p ∈ setHooked l g, p.1 ≠ x := by
  intro p hp
  obtain ⟨q, hq, hfq⟩ := List.mem_map.mp hp
  have hkey : p.1 = q.1 := by
    rw [← hfq]
    by_cases hq1 : q.1 = g <;> simp [hq1]
  rw [hkey]
  exact h q hq

/-- Inserting under a fresh key adds that entry's contribution to the exit
count. -/
theorem countExitAt_bpInsert (l : List (Nat × LoggerBpData)) (g : Nat) (d : LoggerBpData)
    (ro : Nat) (h : ∀ p ∈ l, p.1 ≠ g) :
    countExitAt (bpInsert l g d) ro
      = countExitAt l ro + (if exitPred ro (g, d) then 1 else 0) := by
  unfold countExitAt bpInsert
  rw [List.countP_cons, filter_keys_ne l g h]

/-- Inserting under a fresh key does not disturb the lookup of a different
key. -/
theorem lookupBp_bpInsert_ne (l : List (Nat × LoggerBpData)) (g g' : Nat) (d : LoggerBpData)
    (hne : g ≠ g') (h : ∀ p ∈ l, p.1 ≠ g') :
    lookupBp (bpInsert l g' d) g = lookupBp l g := by
  unfold lookupBp bpInsert
  rw [filter_keys_ne l g' h, List.find?_cons_of_neg]
  simpa using Ne.symm hne

/-- Claim C5, counterexample: the claim asks for exactly one exit entry per
distinct return address observed for an enter entry.  The gating flag lives
on the enter entry, not on the return address: after the first firing (return
offset 100) installs its exit hook, a second firing of the same entry
observing the distinct return offset 200 completes without panicking yet
installs no exit entry at 200 (while offset 100 has its one entry). -/
theorem c5_second_return_site_gets_no_exit_hook :
    countExitAt (call_state loggerRegistry0
      (CallbackBreakpoints.call loggerRegistry0 loggerHostA 1)) 100 = 1
  ∧ CallbackBreakpoints.call
        (call_state loggerRegistry0 (CallbackBreakpoints.call loggerRegistry0 loggerHostA 1))
        loggerHostC 1
      = PanicOr.value
          (call_state
            (call_state loggerRegistry0 (CallbackBreakpoints.call loggerRegistry0 loggerHostA 1))
            (CallbackBreakpoints.call
              (call_state loggerRegistry0
                (CallbackBreakpoints.call loggerRegistry0 loggerHostA 1))
              loggerHostC 1),
           DebugInstruction.Go)
  ∧ countExitAt
      (call_state
        (call_state loggerRegistry0 (CallbackBreakpoints.call loggerRegistry0 loggerHostA 1))
        (CallbackBreakpoints.call
          (call_state loggerRegistry0 (CallbackBreakpoints.call loggerRegistry0 loggerHostA 1))
          loggerHostC 1)) 200 = 0 := by
  decide

/-- The unpacker's `is_address_hooked` test is false exactly on return
addresses holding no `VirtualAllocExit` breakpoint. -/
theorem is_address_hooked_eq_false_of_count (r : MemoryRegions) (ro : Nat)
    (h : countExitBpAt r ro = 0) :
    r.is_address_hooked ro BreakpointFunction.VirtualAllocExit = false := by
  have h' : List.countP (exitBpPred ro) r.breakpoints = 0 := h
  unfold MemoryRegions.is_address_hooked
  rw [List.any_eq_false]
  intro p hp
  simpa [exitBpPred] using List.countP_eq_zero.mp h' p hp

/-- The unpacker's `is_address_hooked` test is true on return addresses
already holding a `VirtualAllocExit` breakpoint. -/
theorem is_address_hooked_of_count_pos (r : MemoryRegions) (ro : Nat)
    (h : 0 < countExitBpAt r ro) :
    r.is_address_hooked ro BreakpointFunction.VirtualAllocExit = true := by
  have h' : 0 < List.countP (exitBpPred ro) r.breakpoints := h
  obtain ⟨p, hp, hpred⟩ := List.countP_pos_iff.mp h'
  unfold MemoryRegions.is_address_hooked
  rw [List.any_eq_true]
  exact ⟨p, hp, by simpa [exitBpPred] using hpred⟩

/-- The logger half of the amended C5 statement: two successive firings of a
not-yet-hooked enter entry, all host calls succeeding and the created
breakpoint's GUID fresh, leave exactly one exit entry at the first firing's
return offset, after the first call and after the second. -/
theorem c5_logger_pair_aux (l : List (Nat × LoggerBpData)) (h1 h2 : LoggerHost)
    (g : Nat) (d : LoggerBpData)
    (hlook : lookupBp l g = some d)
    (hnothooked : d.function_return_hooked = false)
    (hnoexit : countExitAt l h1.ro = 0)
    (hfresh : ∀ p ∈ l, p.1 ≠ h1.fresh_guid)
    (hgne : g ≠ h1.fresh_guid)
    (hg1 : h1.guid_ok = true) (hs1 : h1.stack_ok = true) (ha1 : h1.addbp_ok = true)
    (hg2 : h2.guid_ok = true) :
    countExitAt (call_state l (CallbackBreakpoints.call l h1 g)) h1.ro = 1
  ∧ countExitAt
      (call_state (call_state l (CallbackBreakpoints.call l h1 g))
        (CallbackBreakpoints.call (call_state l (CallbackBreakpoints.call l h1 g)) h2 g))
      h1.ro = 1 := by
  have hkeys : ∀ p ∈ setHooked l g, p.1 ≠ h1.fresh_guid :=
    setHooked_keys_ne l g h1.fresh_guid hfresh
  have hcall1 : CallbackBreakpoints.call l h1 g
      = PanicOr.value
          (bpInsert (setHooked l g) h1.fresh_guid
            { guid := h1.fresh_guid, offset := h1.ro, function_name := d.function_name,
              function_return_hooked := true, is_exit_callback := true }, h1.cb_result) := by
    simp [CallbackBreakpoints.call, hg1, hlook, hnothooked, hs1, ha1]
  rw [hcall1]
  simp only [call_state]
  have hc1 : countExitAt
      (bpInsert (setHooked l g) h1.fresh_guid
        { guid := h1.fresh_guid, offset := h1.ro, function_name := d.function_name,
          function_return_hooked := true, is_exit_callback := true }) h1.ro = 1 := by
    rw [countExitAt_bpInsert _ _ _ _ hkeys, countExitAt_setHooked, hnoexit]
    simp [exitPred]
  have hlook2 : lookupBp
      (bpInsert (setHooked l g) h1.fresh_guid
        { guid := h1.fresh_guid, offset := h1.ro, function_name := d.function_name,
          function_return_hooked := true, is_exit_callback := true }) g
      = some { d with function_return_hooked := true } := by
    rw [lookupBp_bpInsert_ne (setHooked l g) g h1.fresh_guid _ hgne hkeys,
      lookupBp_setHooked, hlook]
    rfl
  have hcall2 : CallbackBreakpoints.call
      (bpInsert (setHooked l g) h1.fresh_guid
        { guid := h1.fresh_guid, offset := h1.ro, function_name := d.function_name,
          function_return_hooked := true, is_exit_callback := true }) h2 g
      = PanicOr.value
          (setHooked
            (bpInsert (setHooked l g) h1.fresh_guid
              { guid := h1.fresh_guid, offset := h1.ro, function_name := d.function_name,
                function_return_hooked := true, is_exit_callback := true }) g,
           h2.cb_result) := by
    simp [CallbackBreakpoints.call, hg2, hlook2]
  rw [hcall2]
  simp only [call_state]
  rw [countExitAt_setHooked]
  exact ⟨hc1, hc1⟩

/-- Claim C5, amended: two successive calls sharing one return address
install exactly one exit-hook entry at that address, never two — at both
cited sites; beyond that the gating differs per site.  The function
logger's registry (`bp.rs`) gates per enter entry: an entry not yet
return-hooked gets exactly one exit entry at its first observed return
address, one after the first firing and still one, not two, after a second
firing sharing that address (part one; from the counterexample, a later
distinct return address of that entry then receives none).  The unpacker's
enter hook (`monitor.rs`, guard modelled from the spec) gates per return
address: a return address holding no exit breakpoint receives exactly one
when observed, and a return address already holding one receives nothing
more, leaving the breakpoint map untouched (part two). -/
theorem c5_exit_hook_once_amended :
    (∀ (l : List (Nat × LoggerBpData)) (h1 h2 : LoggerHost) (g : Nat) (d : LoggerBpData),
        lookupBp l g = some d →
        d.function_return_hooked = false →
        countExitAt l h1.ro = 0 →
        (∀ p ∈ l, p.1 ≠ h1.fresh_guid) →
        g ≠ h1.fresh_guid →
        h2.ro = h1.ro →
        h1.guid_ok = true → h1.stack_ok = true → h1.addbp_ok = true → h2.guid_ok = true →
        countExitAt (call_state l (CallbackBreakpoints.call l h1 g)) h1.ro = 1
      ∧ countExitAt
          (call_state (call_state l (CallbackBreakpoints.call l h1 g))
            (CallbackBreakpoints.call (call_state l (CallbackBreakpoints.call l h1 g)) h2 g))
          h1.ro = 1)
  ∧ (∀ (regions : MemoryRegions) (g rdx r9 ro : Nat),
        (countExitBpAt regions ro = 0 →
          countExitBpAt (VirtualAlloc_enter regions g rdx r9 ro).regions ro = 1)
      ∧ (0 < countExitBpAt regions ro →
          (VirtualAlloc_enter regions g rdx r9 ro).regions.breakpoints
            = regions.breakpoints)) := by
  constructor
  · intro l h1 h2 g d hlook hnothooked hnoexit hfresh hgne hro hg1 hs1 ha1 hg2
    exact c5_logger_pair_aux l h1 h2 g d hlook hnothooked hnoexit hfresh hgne hg1 hs1 ha1 hg2
  · intro regions g rdx r9 ro
    constructor
    · intro hzero
      have hz1 : countExitBpAt
          (regions.new_allocation
            { size := rdx, protection := r9 % U32, address := 0, function_return := ro }) ro
          = 0 := hzero
      have hfalse := is_address_hooked_eq_false_of_count _ ro hz1
      have hzero' : List.countP (exitBpPred ro) regions.breakpoints = 0 := hzero
      simp only [VirtualAlloc_enter, hfalse, Bool.false_eq_true, if_false]
      have hfz : List.countP (exitBpPred ro)
          (regions.breakpoints.filter fun p => !(decide (p.1 = g))) = 0 := by
        rw [List.countP_eq_zero]
        intro a ha
        exact List.countP_eq_zero.mp hzero' a (List.mem_filter.mp ha).1
      unfold countExitBpAt MemoryRegions.add_breakpoint MemoryRegions.new_allocation
      rw [List.countP_cons]
      simp only at hfz ⊢
      rw [hfz]
      simp [exitBpPred]
    · intro hpos
      have hp1 : 0 < countExitBpAt
          (regions.new_allocation
            { size := rdx, protection := r9 % U32, address := 0, function_return := ro }) ro :=
        hpos
      have htrue := is_address_hooked_of_count_pos _ ro hp1
      simp only [VirtualAlloc_enter, htrue]
      simp [MemoryRegions.new_allocation]

/-- Witness for `c5_exit_hook_once_amended`: the logger's single enter entry
fired twice with return offset 100 leaves exactly one exit entry at 100;
the unpacker's enter hook installs one exit breakpoint at a fresh return
address 100, and installs nothing when 100 already holds one. -/
theorem c5_exit_hook_once_amended_witness :
    (countExitAt (call_state loggerRegistry0
        (CallbackBreakpoints.call loggerRegistry0 loggerHostA 1)) loggerHostA.ro = 1
      ∧ countExitAt
          (call_state
            (call_state loggerRegistry0 (CallbackBreakpoints.call loggerRegistry0 loggerHostA 1))
            (CallbackBreakpoints.call
              (call_state loggerRegistry0
                (CallbackBreakpoints.call loggerRegistry0 loggerHostA 1))
              loggerHostB 1))
          loggerHostA.ro = 1)
  ∧ countExitBpAt (VirtualAlloc_enter MemoryRegions.empty 5 4096 64 100).regions 100 = 1
  ∧ (VirtualAlloc_enter
        { breakpoints :=
            [(5, { address := 100, function := BreakpointFunction.VirtualAllocExit, guid := 5 })],
          allocations := [] } 6 4096 64 100).regions.breakpoints
      = [(5, { address := 100, function := BreakpointFunction.VirtualAllocExit, guid := 5 })] :=
  ⟨c5_exit_hook_once_amended.1 loggerRegistry0 loggerHostA loggerHostB 1 loggerEnterEntry
      (by decide) (by decide) (by decide) (by decide) (by decide) rfl rfl rfl rfl rfl,
   (c5_exit_hook_once_amended.2 MemoryRegions.empty 5 4096 64 100).1 (by decide),
   (c5_exit_hook_once_amended.2
      { breakpoints :=
          [(5, { address := 100, function := BreakpointFunction.VirtualAllocExit, guid := 5 })],
        allocations := [] } 6 4096 64 100).2 (by decide)⟩



/-- The counter after an exception notification is either replaced by 2 (the
handled path) or untouched. -/
theorem exception_callback_counter (host : FaultHost) (regions : MemoryRegions)
    (fs : List DumpName) (c : Int) (ei : ExceptionInfo) :
    (exception_callback host regions fs c ei).exception_handled = 2
  ∨ (exception_callback host regions fs c ei).exception_handled = c := by
  by_cases hcode : ei.record.exception_code = EXCEPTION_ACCESS_VIOLATION
  · by_cases hok : (handle_exception host regions fs ei.record.exception_address).ok <;>
      simp [exception_callback, hcode, hok]
  · simp [exception_callback, hcode]

/-- The counter after an engine-state notification is either untouched, or
decremented from a value that was positive. -/
theorem change_engine_state_counter (c : Int) (flags argument : Nat) :
    (change_engine_state c flags argument).exception_handled = c
  ∨ ((change_engine_state c flags argument).exception_handled = c - 1 ∧ 0 < c) := by
  by_cases h : flags = DEBUG_CES_EXECUTION_STATUS ∧ argument % U32 = DEBUG_STATUS_BREAK ∧ 0 < c
  · right
    refine ⟨?_, h.2.2⟩
    simp [change_engine_state, h, h.2.2]
  · left
    simp only [change_engine_state]
    rw [if_neg h]

/-- Claim C9: for every breakpoint notification delivered through the COM
boundary of `events.rs`, and every pattern of host-call failures (GUID
query, stack introspection, breakpoint creation — each of which makes the
core callback panic via `unwrap`, and callback errors, which the registry
converts to `NoChange`), the boundary hands an instruction back to the
engine: a panicking callback is caught by `catch_unwind` and answered
`GoNotHandled`, a completing callback's own instruction is passed through —
and the panic branch is reachable, so the catch is doing real work. -/
theorem c9_failures_caught_at_boundary :
    (∀ (l : List (Nat × LoggerBpData)) (host : LoggerHost) (fired : Nat),
        logger_breakpoint_event l host fired = DebugInstruction.GoNotHandled
      ∨ ∃ st i, CallbackBreakpoints.call l host fired = PanicOr.value (st, i)
          ∧ logger_breakpoint_event l host fired = i)
  ∧ (∃ (l : List (Nat × LoggerBpData)) (host : LoggerHost) (fired : Nat),
        CallbackBreakpoints.call l host fired = PanicOr.panicked
      ∧ logger_breakpoint_event l host fired = DebugInstruction.GoNotHandled) := by
  constructor
  · intro l host fired
    rcases h : CallbackBreakpoints.call l host fired with _ | ⟨st, i⟩
    · left
      simp [logger_breakpoint_event, h]
    · right
      exact ⟨st, i, rfl, by simp [logger_breakpoint_event, h]⟩
  · exact ⟨[], loggerHostPanic, 0, by decide, by decide⟩

/-- Claim C10: over every sequence of exception and engine-state
notifications (with arbitrary host behavior, allocation tables and stable
storage at each step), the `exception_handled` counter starting from 0
never becomes negative: the exception path only writes 2 or leaves it, and
the engine-state path only decrements when the counter is positive. -/
theorem c10_counter_never_negative (events : List Notification) :
    0 ≤ events.foldl counter_step 0 := by
  have key : ∀ (t : List Notification) (c : Int), 0 ≤ c → 0 ≤ t.foldl counter_step c := by
    intro t
    induction t with
    | nil =>
      intro c hc
      simpa using hc
    | cons n t ih =>
      intro c hc
      rw [List.foldl_cons]
      apply ih
      cases n with
      | exception_event host regions fs ei =>
        simp only [counter_step]
        rcases exception_callback_counter host regions fs c ei with h | h <;> rw [h] <;> omega
      | engine_state_event flags argument =>
        simp only [counter_step]
        rcases change_engine_state_counter c flags argument with h | ⟨h, hpos⟩ <;>
          rw [h] <;> omega
  exact key events 0 le_rfl

end Spec2Proof
